import Mathlib

/-!
Verification development for the storage orchestration layer of the
`life4cut` repository (NestJS + Prisma media storage service).

The definitions below are a shallow embedding of the TypeScript source:

* `src/storage/storage.service.ts` — `StorageService` (round-robin registry,
  failover upload loop, upload transaction, download, delete, listFiles);
* `src/storage/adapter/cloud-storage.factory.ts` — the `StorageType` enum;
* the adapter contract `CloudStorageAdapter` and the per-provider adapters
  `AwsS3Adapter`, `GoogleCloudStorageAdapter`, `AzureBlobStorageAdapter`
  (their signed-URL caches share one implementation pattern, embedded once).

Conventions of the embedding:

* Promises/exceptions become `Except StorageError _` values.
* Database rows become explicit record lists; injected booleans model whether
  a metadata-store write succeeds.
* Provider SDK calls become behaviour functions passed as parameters
  (e.g. `Nat → Except StorageError UploadResult` for per-adapter upload).
* `Date.now()` becomes an explicit `now : Nat` (milliseconds).
-/

/-- Error codes, from `StorageErrorCode` in `cloud-storage.interface.ts`. -/
inductive StorageErrorCode where
  | UPLOAD_FAILED
  | DELETE_FAILED
  | LIST_FAILED
  | URL_GENERATION_FAILED
  | FILE_NOT_FOUND
  | VALIDATION_FAILED
  | NOT_IMPLEMENTED
  | DATABASE_ERROR
  | DOWNLOAD_FAILED
deriving DecidableEq, Repr

/-- A thrown storage error: `message`, `code` and optional `details`
(the source throws plain objects with these fields; `details` usually wraps
the originating error, which we also represent as a `StorageError`).
`base` has no `details`; `wrap` carries the wrapped error. -/
inductive StorageError where
  | base (message : String) (code : StorageErrorCode)
  | wrap (message : String) (code : StorageErrorCode) (details : StorageError)
deriving DecidableEq, Repr

/-- The `code` field of a thrown error. -/
def StorageError.code : StorageError → StorageErrorCode
  | .base _ c => c
  | .wrap _ c _ => c

/-- The `details` field of a thrown error. -/
def StorageError.details : StorageError → Option StorageError
  | .base _ _ => none
  | .wrap _ _ d => some d

/-- The error code of an `Except` result, `none` when it succeeded. -/
def errCode {α : Type} : Except StorageError α → Option StorageErrorCode
  | .error e => some e.code
  | .ok _ => none

/-- The code of the `details` of the error of a result, when all present. -/
def errDetailsCode {α : Type} : Except StorageError α → Option StorageErrorCode
  | .error (.wrap _ _ d) => some d.code
  | _ => none

/-- Whether a result is an error. -/
def isErr {α : Type} : Except StorageError α → Bool
  | .error _ => true
  | .ok _ => false

/-- Provider tags, from the `StorageType` enum in `cloud-storage.factory.ts`
(`google = 'google'`, `aws = 'aws'`, `azure = 'azure'`). -/
inductive StorageType where
  | google
  | aws
  | azure
deriving DecidableEq, Repr

/-- The operations of the `CloudStorageAdapter` capability contract. -/
inductive AdapterOp where
  | upload
  | delete
  | listFiles
  | getPublicUrl
  | opExists
  | getFileHash
  | download
deriving DecidableEq, Repr

/-- The operations declared by the `CloudStorageAdapter` interface
(`cloud-storage.interface.ts`): upload, delete, listFiles, getPublicUrl,
exists, getFileHash, download. -/
def contractOps : List AdapterOp :=
  [.upload, .delete, .listFiles, .getPublicUrl, .opExists, .getFileHash, .download]

/-- The methods the `AwsS3Adapter` class actually defines (public methods of
the class body in `aws-s3.adapter.ts`): upload, delete, listFiles,
getPublicUrl, exists, getFileHash.  There is no `download` method. -/
def awsOps : List AdapterOp :=
  [.upload, .delete, .listFiles, .getPublicUrl, .opExists, .getFileHash]

/-- The methods the `GoogleCloudStorageAdapter` class actually defines
(`google-cloud.adapter.ts`): upload, delete, listFiles, getPublicUrl,
exists, getFileHash.  There is no `download` method. -/
def googleOps : List AdapterOp :=
  [.upload, .delete, .listFiles, .getPublicUrl, .opExists, .getFileHash]

/-- The methods the `AzureBlobStorageAdapter` class actually defines
(`azure-blob.adapter.ts`): upload, download, delete, listFiles, getPublicUrl,
exists, getFileHash. -/
def azureOps : List AdapterOp :=
  [.upload, .download, .delete, .listFiles, .getPublicUrl, .opExists, .getFileHash]

/-- Whether the adapter class for a provider tag defines a given method. -/
def implementsOp (t : StorageType) (op : AdapterOp) : Bool :=
  match t with
  | .aws => awsOps.contains op
  | .google => googleOps.contains op
  | .azure => azureOps.contains op

/-! ## Provider registry: round-robin cursor and failover upload loop -/

/-- The registry state of `StorageService`: `n` is `adapterList.length`
(adapters are referred to by their index `0, …, n-1` in `adapterList`) and
`cursor` is `currentAdapterIndex`. -/
structure RRState where
  n : Nat
  cursor : Nat
deriving DecidableEq, Repr

namespace StorageService

/-- `StorageService.getNextAdapter`: returns
`adapterList[currentAdapterIndex]` (as its index), then advances
`currentAdapterIndex = (currentAdapterIndex + 1) % adapterList.length`. -/
def getNextAdapter (s : RRState) : Nat × RRState :=
  (s.cursor, { s with cursor := (s.cursor + 1) % s.n })

/-- Result of a successful adapter `upload` call (the fields of
`StorageUploadResult` that the orchestrator reads). -/
structure UploadResult where
  storageFileId : String
  storageUrl : Option String
deriving DecidableEq, Repr

/-- Outcome of `StorageService.uploadToStorage`:
`success` is the first adapter result returned from inside the loop;
`failure` is the thrown `UPLOAD_FAILED` wrapper after the last adapter
failed; `undef` is the JS `undefined` returned when the loop body never
runs (empty adapter list). -/
inductive UploadOutcome where
  | success (r : UploadResult)
  | failure (e : StorageError)
  | undef
deriving DecidableEq, Repr

/-- The error thrown when every adapter failed
(`'All storage adapters failed to upload the file'`, code `UPLOAD_FAILED`,
`details` = the last adapter's error). -/
def allFailedErr (last : StorageError) : StorageError :=
  .wrap "All storage adapters failed to upload the file" .UPLOAD_FAILED last

/-- The loop body of `uploadToStorage`, with `r + 1` remaining iterations
(`r = 0` corresponds to the source's `i === this.adapterList.length - 1`
check on the last iteration).  `up a` is the behaviour of
`adapterList[a].upload`.  Returns the outcome, the final registry state and
the list of adapter indices attempted, in order. -/
def uploadGo (up : Nat → Except StorageError UploadResult) :
    Nat → RRState → UploadOutcome × RRState × List Nat
  | 0, s => (.undef, s, [])
  | r + 1, s =>
    let (a, s') := getNextAdapter s
    match up a with
    | .ok res => (.success res, s', [a])
    | .error e =>
      if r = 0 then
        (.failure (allFailedErr e), s', [a])
      else
        let (out, s'', rest) := uploadGo up r s'
        (out, s'', a :: rest)

/-- `StorageService.uploadToStorage`: `for (let i = 0; i < adapterList.length;
i++) { const adapter = this.getNextAdapter(); try { return await
adapter.upload(...) } catch { if (i === length - 1) throw UPLOAD_FAILED } }`. -/
def uploadToStorage (up : Nat → Except StorageError UploadResult)
    (s : RRState) : UploadOutcome × RRState × List Nat :=
  uploadGo up s.n s

/-- The cursor positions consumed starting at `c0`:
`[(c0) % n, (c0+1) % n, …]`, `k` of them. -/
def cursorSeq (n c0 k : Nat) : List Nat :=
  (List.range k).map (fun j => (c0 + j) % n)

/-- `K` consecutive calls to `uploadToStorage` on the same registry
(the storage side of `K` consecutive uploads); returns the final registry
state and the concatenated attempt traces. -/
def runUploads (up : Nat → Except StorageError UploadResult) :
    Nat → RRState → RRState × List Nat
  | 0, s => (s, [])
  | k + 1, s =>
    let (_, s', tr) := uploadToStorage up s
    let (s'', rest) := runUploads up k s'
    (s'', tr ++ rest)

/-! ## The upload transaction (`uploadFile` + `createFileRecord`)

`uploadFile` runs `this.prisma.$transaction(async (prisma) => { ... })`.
Inside the callback the source uses TWO Prisma clients:

* `createFileRecord` writes the File row through `this.prisma.file.create`
  — the ROOT client, whose writes commit immediately, OUTSIDE the open
  interactive transaction;
* the StorageInfo row is written through `prisma.storageInfo.create` — the
  transaction client, whose writes are rolled back if the callback throws.

The metadata store is modelled as the lists of File-row ids and
StorageInfo-row file ids; `fileCreateOk` / `infoCreateOk` inject whether
each of the two writes succeeds.  The embedding distinguishes the two
clients: a root-client write that succeeded persists even when the
transaction later rolls back. -/

/-- Ids of the committed File rows and StorageInfo rows. -/
structure MetaDB where
  fileRows : List String
  infoRows : List String
deriving DecidableEq, Repr

/-- Response of a successful `uploadFile`. -/
structure UploadResponse where
  storageFileId : String
  storageUrl : Option String
deriving DecidableEq, Repr

/-- `StorageService.createFileRecord`: `this.prisma.file.create` (root
client) wrapped in try/catch that rethrows as `DATABASE_ERROR`.  `newId` is
the id Prisma assigns to the new row. -/
def createFileRecord (fileCreateOk : Bool) (newId : String) (db : MetaDB) :
    Except StorageError (String × MetaDB) :=
  if fileCreateOk then
    .ok (newId, { db with fileRows := newId :: db.fileRows })
  else
    .error (.base "Failed to create file record" .DATABASE_ERROR)

/-- The error `uploadFile`'s catch-all rethrows: every error of the
callback — including the `UPLOAD_FAILED` raised by `uploadToStorage` — is
wrapped as `'Failed to complete file upload transaction'` with code
`DATABASE_ERROR` and the original error as `details`. -/
def txWrap (e : StorageError) : StorageError :=
  .wrap "Failed to complete file upload transaction" .DATABASE_ERROR e

/-- `StorageService.uploadFile`.  Returns the result, the final registry
state, the final committed metadata store, and the number of metadata-store
writes attempted (0 = none, 1 = File create only, 2 = both creates).

Paths: a `failure` from `uploadToStorage` is caught before any metadata
write; a `createFileRecord` failure leaves the store unchanged; an
`infoCreateOk = false` failure rolls back the transaction client's writes
only — the File row written through the root client persists.  (The
`undef` case is the JS `undefined` result on an empty adapter list, where
`createFileRecord` crashes reading `uploadResult.storageMetadata` before
any write.) -/
def uploadFile (up : Nat → Except StorageError UploadResult)
    (fileCreateOk infoCreateOk : Bool) (newId : String)
    (s : RRState) (db : MetaDB) :
    Except StorageError UploadResponse × RRState × MetaDB × Nat :=
  match uploadToStorage up s with
  | (.failure e, s', _) => (.error (txWrap e), s', db, 0)
  | (.undef, s', _) =>
    (.error (txWrap (.base "Failed to create file record" .DATABASE_ERROR)), s', db, 0)
  | (.success r, s', _) =>
    match createFileRecord fileCreateOk newId db with
    | .error e => (.error (txWrap e), s', db, 1)
    | .ok (fid, db1) =>
      if infoCreateOk then
        (.ok ⟨fid, r.storageUrl⟩, s',
          { db1 with infoRows := fid :: db1.infoRows }, 2)
      else
        (.error (txWrap (.base "storageInfo create failed" .DATABASE_ERROR)),
          s', db1, 2)

end StorageService

/-! ## Per-adapter signed-URL cache (`getPublicUrl`)

`AwsS3Adapter.getPublicUrl`, `GoogleCloudStorageAdapter.getPublicUrl` and
`AzureBlobStorageAdapter.getPublicUrl` share one cache discipline, embedded
once here: consult `urlCache`; a hit with `expiresAt > Date.now()` is
returned without any provider call; otherwise issue the provider's
URL-generation call and store the result with
`expiresAt = Date.now() + expiresIn * 1000`.  (`GoogleCloudStorageAdapter`
additionally checks object existence on a miss; that happens only on the
provider-call path and never on a cache hit.)  `signCalls` counts the
provider URL-generation calls issued; `sign i` is the URL the provider
returns for the `i`-th such call. -/

namespace Adapter

/-- One `urlCache` entry: `{ url, expiresAt }` (`expiresAt` in ms). -/
structure CacheEntry where
  url : String
  expiresAt : Nat
deriving DecidableEq, Repr

/-- The mutable state of one adapter's cache plus a count of provider
URL-generation calls. -/
structure UrlState where
  urlCache : List (String × CacheEntry)
  signCalls : Nat
deriving DecidableEq, Repr

/-- `Map.get`: the entry stored for a key, if any. -/
def cacheGet (c : List (String × CacheEntry)) (k : String) : Option CacheEntry :=
  (c.find? (fun p => p.1 = k)).map (fun p => p.2)

/-- `Map.set`: store `e` under `k`, replacing any previous entry. -/
def cacheSet (c : List (String × CacheEntry)) (k : String) (e : CacheEntry) :
    List (String × CacheEntry) :=
  (k, e) :: c.filter (fun p => ¬ (p.1 = k))

/-- The entry a lookup at time `now` would serve: `some` only when present
with `expiresAt > now` (`cached && cached.expiresAt > Date.now()`). -/
def validCached (st : UrlState) (now : Nat) (k : String) : Option CacheEntry :=
  match cacheGet st.urlCache k with
  | some e => if now < e.expiresAt then some e else none
  | none => none

/-- `getPublicUrl(storageFileId, expiresIn = 3600)`: cache hit with
`expiresAt > now` short-circuits; otherwise one provider URL-generation
call, cached with `expiresAt = now + expiresIn * 1000`. -/
def getPublicUrl (sign : Nat → String) (now expiresIn : Nat)
    (storageFileId : String) (st : UrlState) : String × UrlState :=
  match validCached st now storageFileId with
  | some e => (e.url, st)
  | none =>
    let url := sign st.signCalls
    (url,
      { urlCache := cacheSet st.urlCache storageFileId
          ⟨url, now + expiresIn * 1000⟩,
        signCalls := st.signCalls + 1 })

lemma getPublicUrl_hit (sign : Nat → String) (now expiresIn : Nat)
    (k : String) (st : UrlState) (e : CacheEntry)
    (h : validCached st now k = some e) :
    getPublicUrl sign now expiresIn k st = (e.url, st) := by
  unfold getPublicUrl
  rw [h]

lemma getPublicUrl_miss (sign : Nat → String) (now expiresIn : Nat)
    (k : String) (st : UrlState)
    (h : validCached st now k = none) :
    getPublicUrl sign now expiresIn k st =
      (sign st.signCalls,
        { urlCache := cacheSet st.urlCache k
            ⟨sign st.signCalls, now + expiresIn * 1000⟩,
          signCalls := st.signCalls + 1 }) := by
  unfold getPublicUrl
  rw [h]

end Adapter

/-! ## Metadata rows, download, delete, listFiles

The Prisma `File` and `StorageInfo` rows, restricted to the columns the
orchestrator reads or writes (Swagger-only columns such as `fileHash`,
`width`, `height`, `duration`, `encoding`, `version` are not touched by the
operations under study and are omitted).  `deletedAt` and `createdAt` are
timestamps in ms. -/

/-- A `File` row. -/
structure FileRow where
  id : String
  name : String
  mimeType : String
  branchId : String
  accessCount : Nat
  createdAt : Nat
  deletedAt : Option Nat
deriving DecidableEq, Repr

/-- A `StorageInfo` row (one per file at most, keyed by `fileId`). -/
structure InfoRow where
  fileId : String
  storageType : StorageType
  storageFileId : String
  isActive : Bool
deriving DecidableEq, Repr

/-- The relational store for the read-side operations. -/
structure DB where
  files : List FileRow
  infos : List InfoRow
deriving DecidableEq, Repr

namespace StorageService

/-- `prisma.file.findFirst({ where: { id } })` — no `deletedAt` condition
appears in the `where` clause of `downloadFile`/`getFileUrl`. -/
def findFile (db : DB) (id : String) : Option FileRow :=
  db.files.find? (fun f => f.id = id)

/-- The `storageInfo` relation included with a file lookup. -/
def findInfo (db : DB) (id : String) : Option InfoRow :=
  db.infos.find? (fun i => i.fileId = id)

/-- `prisma.file.update({ where: { id }, data: { accessCount: { increment:
1 } } })`, committed by its own `$transaction([...])` batch. -/
def bumpAccess (db : DB) (id : String) : DB :=
  { db with
    files := db.files.map (fun g =>
      if g.id = id then { g with accessCount := g.accessCount + 1 } else g) }

/-- Successful `downloadFile` response: the adapter's stream (abstracted to
a handle) plus filename/mimetype sourced from the metadata record. -/
structure DownloadOk where
  stream : Nat
  filename : String
  mimetype : String
deriving DecidableEq, Repr

/-- `StorageService.downloadFile(storageFileId, storageType)`.

`cfg t` models `this.adapters.has(t)` (whether the provider's adapter was
configured and initialized); `dl t sfid` models `adapter.download(sfid)`
returning a stream handle.  Returns the result, the resulting store, and
the trace of adapter `download` calls `(provider tag, storageFileId)`.

Source order: (1) `findFirst { id }` incl. `storageInfo` — missing file or
missing relation throws `FILE_NOT_FOUND`; (2) `this.adapters.get(
storageType)` — the CALLER-SUPPLIED tag — absent throws
`VALIDATION_FAILED` before any counter update; (3) the access-counter
increment commits in its own transaction; (4) `adapter.download(
storageInfo.storageFileId)` — a failure is rethrown as `DOWNLOAD_FAILED`
after the increment already committed. -/
def downloadFile (cfg : StorageType → Bool)
    (dl : StorageType → String → Except StorageError Nat)
    (db : DB) (storageFileId : String) (storageType : StorageType) :
    Except StorageError DownloadOk × DB × List (StorageType × String) :=
  match findFile db storageFileId with
  | none => (.error (.base "File not found" .FILE_NOT_FOUND), db, [])
  | some f =>
    match findInfo db storageFileId with
    | none => (.error (.base "File not found" .FILE_NOT_FOUND), db, [])
    | some info =>
      if cfg storageType then
        let db1 := bumpAccess db storageFileId
        match dl storageType info.storageFileId with
        | .ok stream =>
          (.ok ⟨stream, f.name, f.mimeType⟩, db1,
            [(storageType, info.storageFileId)])
        | .error e =>
          (.error (.wrap "Failed to download file" .DOWNLOAD_FAILED e), db1,
            [(storageType, info.storageFileId)])
      else
        (.error (.base "Storage provider not available" .VALIDATION_FAILED),
          db, [])

/-- Response of `deleteFile`. -/
structure DeleteOk where
  storageFileId : String
  success : Bool
  deletedAt : Option Nat
deriving DecidableEq, Repr

/-- `StorageService.deleteFile({ storageFileId, permanent })`.

`del t sfid` models `adapter.delete(sfid)`.  Permanent mode: resolve the
adapter from the STORED tag `file.storageInfo?.storageType`; when present,
call its `delete` inside try/catch whose catch only logs — both outcomes
continue identically — then `prisma.file.delete` removes the File row
unconditionally.  When the adapter is absent (or the file has no
StorageInfo) the provider call is silently skipped.  Soft mode: set
`deletedAt` and `storageInfo.isActive = false`; no adapter call. -/
def deleteFile (cfg : StorageType → Bool)
    (del : StorageType → String → Except StorageError Unit)
    (db : DB) (storageFileId : String) (permanent : Bool) (now : Nat) :
    Except StorageError DeleteOk × DB × List (StorageType × String) :=
  match findFile db storageFileId with
  | none => (.error (.base "File not found" .FILE_NOT_FOUND), db, [])
  | some _ =>
    if permanent then
      let calls :=
        match findInfo db storageFileId with
        | some info => if cfg info.storageType
            then [(info.storageType, info.storageFileId)] else []
        | none => []
      let dbAfter : DB :=
        { db with files := db.files.filter (fun g => ¬ (g.id = storageFileId)) }
      match calls with
      | [] => (.ok ⟨storageFileId, true, none⟩, dbAfter, [])
      | (t, sfid) :: _ =>
        -- try { await adapter.delete(...) } catch { console.warn(...) }:
        -- both outcomes fall through to the metadata deletion
        match del t sfid with
        | .ok _ => (.ok ⟨storageFileId, true, none⟩, dbAfter, [(t, sfid)])
        | .error _ => (.ok ⟨storageFileId, true, none⟩, dbAfter, [(t, sfid)])
    else
      let db' : DB :=
        { files := db.files.map (fun g =>
            if g.id = storageFileId then { g with deletedAt := some now } else g),
          infos := db.infos.map (fun i =>
            if i.fileId = storageFileId then { i with isActive := false } else i) }
      (.ok ⟨storageFileId, true, some now⟩, db', [])

/-- `ListFilesRequestDto` (the fields `listFiles` reads).  `pfx` is the
source's `prefix` filter. -/
structure ListFilesRequest where
  branchId : String
  pfx : Option String
  page : Nat
  limit : Nat
deriving DecidableEq, Repr

/-- The `where` clause of `listFiles`: `branchId`, `deletedAt: null`, and
optionally `name startsWith prefix OR storageInfo.storageFileId startsWith
prefix`. -/
def listWhere (db : DB) (dto : ListFilesRequest) (f : FileRow) : Bool :=
  f.branchId = dto.branchId && f.deletedAt = none &&
    (match dto.pfx with
     | none => true
     | some p =>
       f.name.startsWith p ||
         (match findInfo db f.id with
          | some i => i.storageFileId.startsWith p
          | none => false))

/-- The fields of `FileInfoDto` produced by `mapToFileInfoDto` that the
claims mention (remaining DTO fields are copies of row columns omitted from
`FileRow`). -/
structure FileInfo where
  storageFileId : String
  fileName : String
  mimeType : String
  deletedAt : Option Nat
  isActive : Bool
  storageType : Option StorageType
deriving DecidableEq, Repr

/-- `StorageService.mapToFileInfoDto`. -/
def mapToFileInfoDto (f : FileRow) (i : Option InfoRow) : FileInfo :=
  { storageFileId := f.id
    fileName := f.name
    mimeType := f.mimeType
    deletedAt := f.deletedAt
    isActive := f.deletedAt = none && (match i with
      | some info => info.isActive
      | none => false)
    storageType := i.map (fun info => info.storageType) }

/-- Response of `listFiles`. -/
structure ListFilesResponse where
  files : List FileInfo
  totalCount : Nat
  currentPage : Nat
deriving DecidableEq, Repr

/-- `StorageService.listFiles`: filter by `listWhere`, order by `createdAt`
descending, paginate with `skip = (page - 1) * limit`, `take = limit`, and
map through `mapToFileInfoDto`. -/
def listFiles (db : DB) (dto : ListFilesRequest) : ListFilesResponse :=
  let matching := db.files.filter (listWhere db dto)
  let ordered := matching.mergeSort (fun a b => b.createdAt ≤ a.createdAt)
  let pageRows := (ordered.drop ((dto.page - 1) * dto.limit)).take dto.limit
  { files := pageRows.map (fun f => mapToFileInfoDto f (findInfo db f.id))
    totalCount := matching.length
    currentPage := dto.page }

/-! ## Characterization of the failover loop -/

lemma cursorSeq_succ (n c0 k : Nat) :
    cursorSeq n c0 (k + 1) = (c0 % n) :: cursorSeq n (c0 + 1) k := by
  unfold cursorSeq
  rw [List.range_succ_eq_map, List.map_cons, List.map_map]
  refine congrArg₂ _ (by simp) ?_
  apply List.map_congr_left
  intro j _
  simp only [Function.comp_apply]
  congr 1
  omega

lemma cursorSeq_mod (n c0 k : Nat) :
    cursorSeq n (c0 % n) k = cursorSeq n c0 k := by
  unfold cursorSeq
  apply List.map_congr_left
  intro j _
  exact Nat.mod_add_mod c0 n j

/-- One unfolding of the loop body. -/
lemma uploadGo_succ (up : Nat → Except StorageError UploadResult)
    (r : Nat) (s : RRState) :
    uploadGo up (r + 1) s =
      match up s.cursor with
      | .ok res =>
        (.success res, { s with cursor := (s.cursor + 1) % s.n }, [s.cursor])
      | .error e =>
        if r = 0 then
          (.failure (allFailedErr e),
            { s with cursor := (s.cursor + 1) % s.n }, [s.cursor])
        else
          let t := uploadGo up r { s with cursor := (s.cursor + 1) % s.n }
          (t.1, t.2.1, s.cursor :: t.2.2) := by
  simp only [uploadGo, getNextAdapter]

/-- With every adapter failing, the loop with `r + 1` iterations left
attempts the next `r + 1` cursor positions, raises the `UPLOAD_FAILED`
wrapper around the last adapter's error, and leaves the cursor advanced by
`r + 1` positions. -/
lemma uploadGo_allFail (up : Nat → Except StorageError UploadResult)
    (errs : Nat → StorageError) (n : Nat)
    (h : ∀ a, a < n → up a = .error (errs a)) :
    ∀ r c0, c0 < n →
      uploadGo up (r + 1) ⟨n, c0⟩ =
        (.failure (allFailedErr (errs ((c0 + r) % n))),
          ⟨n, (c0 + r + 1) % n⟩, cursorSeq n c0 (r + 1)) := by
  intro r
  induction r with
  | zero =>
    intro c0 hc
    rw [uploadGo_succ, h c0 hc]
    simp [cursorSeq, List.range_succ, Nat.mod_eq_of_lt hc]
  | succ r ih =>
    intro c0 hc
    have hn : 0 < n := by omega
    have hc' : (c0 + 1) % n < n := Nat.mod_lt _ hn
    have e1 : ((c0 + 1) % n + r) % n = (c0 + (r + 1)) % n := by
      rw [Nat.mod_add_mod]; congr 1; omega
    have e2 : ((c0 + 1) % n + r + 1) % n = (c0 + (r + 1) + 1) % n := by
      rw [Nat.add_assoc, Nat.mod_add_mod]; congr 1; omega
    have e3 : (c0 : Nat) :: cursorSeq n ((c0 + 1) % n) (r + 1) =
        cursorSeq n c0 (r + 1 + 1) := by
      rw [cursorSeq_succ n c0 (r + 1), Nat.mod_eq_of_lt hc,
        cursorSeq_mod n (c0 + 1) (r + 1)]
    rw [uploadGo_succ, h c0 hc]
    simp only [if_neg (Nat.succ_ne_zero r)]
    rw [ih ((c0 + 1) % n) hc']
    rw [← e1, ← e2, ← e3]

/-- If the first `k` attempted adapters fail and the `(k+1)`-st succeeds,
the loop returns that result after `k + 1` attempts: the first success
short-circuits and consumes exactly one cursor position per attempt. -/
lemma uploadGo_firstSuccess (up : Nat → Except StorageError UploadResult)
    (n : Nat) :
    ∀ k r c0 res, c0 < n → k < r →
      (∀ j, j < k → ∃ e, up ((c0 + j) % n) = .error e) →
      up ((c0 + k) % n) = .ok res →
      uploadGo up r ⟨n, c0⟩ =
        (.success res, ⟨n, (c0 + k + 1) % n⟩, cursorSeq n c0 (k + 1)) := by
  intro k
  induction k with
  | zero =>
    intro r c0 res hc hkr _ hok
    obtain ⟨r', rfl⟩ : ∃ r', r = r' + 1 := ⟨r - 1, by omega⟩
    rw [show (c0 + 0) % n = c0 from by rw [Nat.add_zero, Nat.mod_eq_of_lt hc]]
      at hok
    rw [uploadGo_succ]
    simp only [hok]
    simp [cursorSeq, List.range_succ, Nat.mod_eq_of_lt hc]
  | succ k ih =>
    intro r c0 res hc hkr hfail hok
    obtain ⟨r', rfl⟩ : ∃ r', r = r' + 1 := ⟨r - 1, by omega⟩
    have hn : 0 < n := by omega
    have hc' : (c0 + 1) % n < n := Nat.mod_lt _ hn
    obtain ⟨e0, he0⟩ := hfail 0 (Nat.succ_pos k)
    rw [show (c0 + 0) % n = c0 from by rw [Nat.add_zero, Nat.mod_eq_of_lt hc]]
      at he0
    have hshift : ∀ j, ((c0 + 1) % n + j) % n = (c0 + (j + 1)) % n := by
      intro j
      rw [Nat.mod_add_mod]; congr 1; omega
    have hfail' : ∀ j, j < k →
        ∃ e, up (((c0 + 1) % n + j) % n) = .error e := by
      intro j hj
      rw [hshift j]
      exact hfail (j + 1) (by omega)
    have hok' : up (((c0 + 1) % n + k) % n) = .ok res := by
      rw [hshift k]; exact hok
    have hr' : ¬ (r' = 0) := by omega
    rw [uploadGo_succ]
    simp only [he0]
    simp only [if_neg hr']
    rw [ih r' ((c0 + 1) % n) res hc' (by omega) hfail' hok']
    have e2 : ((c0 + 1) % n + k + 1) % n = (c0 + (k + 1) + 1) % n := by
      rw [Nat.add_assoc, Nat.mod_add_mod]; congr 1; omega
    have e3 : (c0 : Nat) :: cursorSeq n ((c0 + 1) % n) (k + 1) =
        cursorSeq n c0 (k + 1 + 1) := by
      rw [cursorSeq_succ n c0 (k + 1), Nat.mod_eq_of_lt hc,
        cursorSeq_mod n (c0 + 1) (k + 1)]
    rw [← e2, ← e3]

/-- Whatever the adapters do, the final cursor is the initial cursor
advanced by exactly the number of attempts, modulo `n`: an attempt consumes
one cursor position whether it succeeds or fails, and the cursor never
rewinds. -/
lemma uploadGo_cursor (up : Nat → Except StorageError UploadResult)
    (n : Nat) (hn : 0 < n) :
    ∀ r c0, c0 < n →
      (uploadGo up r ⟨n, c0⟩).2.1 =
        ⟨n, (c0 + (uploadGo up r ⟨n, c0⟩).2.2.length) % n⟩ := by
  intro r
  induction r with
  | zero =>
    intro c0 hc
    simp [uploadGo, Nat.mod_eq_of_lt hc]
  | succ r ih =>
    intro c0 hc
    have hc' : (c0 + 1) % n < n := Nat.mod_lt _ hn
    rw [uploadGo_succ]
    cases hup : up c0 with
    | ok res => simp
    | error e =>
      by_cases hr : r = 0
      · simp [hr]
      · simp only [if_neg hr]
        have := ih ((c0 + 1) % n) hc'
        simp only [List.length_cons]
        rw [this]
        have : ((c0 + 1) % n +
            (uploadGo up r ⟨n, (c0 + 1) % n⟩).2.2.length) % n =
            (c0 + ((uploadGo up r ⟨n, (c0 + 1) % n⟩).2.2.length + 1)) % n := by
          rw [Nat.mod_add_mod]; congr 1; omega
        rw [this]

/-- At most `n` consecutive cursor positions are pairwise distinct. -/
lemma cursorSeq_nodup (n c0 k : Nat) (hk : k ≤ n) :
    (cursorSeq n c0 k).Nodup := by
  unfold cursorSeq
  refine List.Nodup.map_on ?_ (List.nodup_range k)
  intro x hx y hy hxy
  rw [List.mem_range] at hx hy
  have hx' : x % n = x := Nat.mod_eq_of_lt (by omega)
  have hy' : y % n = y := Nat.mod_eq_of_lt (by omega)
  have : x ≡ y [MOD n] := (Nat.ModEq.add_left_cancel' c0 hxy)
  unfold Nat.ModEq at this
  omega

/-- Every adapter index occurs among `n` consecutive cursor positions. -/
lemma cursorSeq_mem (n c0 : Nat) (hc : c0 < n) (a : Nat) (ha : a < n) :
    a ∈ cursorSeq n c0 n := by
  have hn : 0 < n := by omega
  refine List.mem_map.2 ⟨(a + n - c0) % n, List.mem_range.2 (Nat.mod_lt _ hn), ?_⟩
  rw [Nat.add_mod_mod]
  rw [show c0 + (a + n - c0) = a + n from by omega]
  rw [Nat.add_mod_right]
  exact Nat.mod_eq_of_lt ha

/-- A full cycle of `n` cursor positions hits each adapter exactly once. -/
lemma cursorSeq_count_full (n c0 : Nat) (hc : c0 < n) (a : Nat) (ha : a < n) :
    (cursorSeq n c0 n).count a = 1 :=
  List.count_eq_one_of_mem (cursorSeq_nodup n c0 n (Nat.le_refl n))
    (cursorSeq_mem n c0 hc a ha)

lemma cursorSeq_split (n c0 k : Nat) :
    cursorSeq n c0 (n + k) = cursorSeq n c0 n ++ cursorSeq n c0 k := by
  unfold cursorSeq
  rw [List.range_add, List.map_append, List.map_map]
  refine congrArg₂ _ rfl ?_
  apply List.map_congr_left
  intro j _
  simp only [Function.comp_apply]
  rw [show c0 + (n + j) = c0 + j + n from by omega]
  exact Nat.add_mod_right _ n

/-- `K` consecutive cursor positions contain each adapter index between
`⌊K/n⌋` and `⌈K/n⌉` times. -/
lemma cursorSeq_count_bounds (n : Nat) (a : Nat) (ha : a < n) :
    ∀ K c0, c0 < n →
      K / n ≤ (cursorSeq n c0 K).count a ∧
        (cursorSeq n c0 K).count a ≤ (K + n - 1) / n := by
  have hn : 0 < n := by omega
  intro K
  induction K using Nat.strong_induction_on with
  | _ K ih =>
    intro c0 hc
    by_cases hK : n ≤ K
    · obtain ⟨K', rfl⟩ : ∃ K', K = n + K' := ⟨K - n, by omega⟩
      rw [cursorSeq_split, List.count_append,
        cursorSeq_count_full n c0 hc a ha]
      obtain ⟨h1, h2⟩ := ih K' (by omega) c0 hc
      constructor
      · rw [show n + K' = K' + n from by omega, Nat.add_div_right _ hn]
        omega
      · rw [show n + K' + n - 1 = (K' + n - 1) + n from by omega,
          Nat.add_div_right _ hn]
        omega
    · have hub : (cursorSeq n c0 K).count a ≤ 1 :=
        List.nodup_iff_count_le_one.1 (cursorSeq_nodup n c0 K (by omega)) a
      constructor
      · rw [Nat.div_eq_of_lt (by omega)]
        exact Nat.zero_le _
      · rcases Nat.eq_zero_or_pos K with hK0 | hK1
        · subst hK0
          simp [cursorSeq]
        · have : 1 ≤ (K + n - 1) / n := by
            rw [Nat.one_le_div_iff hn]
            omega
          omega

/-- `K` consecutive uploads with no failures: each call consumes exactly
one cursor position and the adapters used are the next `K` cursor
positions. -/
lemma runUploads_allOk (up : Nat → Except StorageError UploadResult)
    (n : Nat) (res : Nat → UploadResult)
    (hok : ∀ a, a < n → up a = .ok (res a)) :
    ∀ K c0, c0 < n →
      runUploads up K ⟨n, c0⟩ = (⟨n, (c0 + K) % n⟩, cursorSeq n c0 K) := by
  intro K
  induction K with
  | zero =>
    intro c0 hc
    simp [runUploads, cursorSeq, Nat.mod_eq_of_lt hc]
  | succ K ih =>
    intro c0 hc
    have hn : 0 < n := by omega
    have hc' : (c0 + 1) % n < n := Nat.mod_lt _ hn
    have hfirst : uploadToStorage up ⟨n, c0⟩ =
        (.success (res c0), ⟨n, (c0 + 1) % n⟩, [c0]) := by
      have := uploadGo_firstSuccess up n 0 n c0 (res c0) hc hn
        (fun j hj => absurd hj (Nat.not_lt_zero j))
        (by rw [Nat.add_zero, Nat.mod_eq_of_lt hc]; exact hok c0 hc)
      unfold uploadToStorage
      rw [this]
      simp [cursorSeq, List.range_succ, Nat.mod_eq_of_lt hc]
    simp only [runUploads, uploadToStorage] at *
    rw [hfirst, ih ((c0 + 1) % n) hc']
    have e1 : ((c0 + 1) % n + K) % n = (c0 + (K + 1)) % n := by
      rw [Nat.mod_add_mod]; congr 1; omega
    have e3 : (c0 : Nat) :: cursorSeq n ((c0 + 1) % n) K =
        cursorSeq n c0 (K + 1) := by
      rw [cursorSeq_succ n c0 K, Nat.mod_eq_of_lt hc,
        cursorSeq_mod n (c0 + 1) K]
    rw [e1, ← e3]
    rfl

end StorageService

/-! ## Sample stores used by concrete instances -/

/-- A one-file store: File `f1` bound to provider `aws` under the
provider-side id `sf1`. -/
def oneFileDb : DB :=
  { files := [{ id := "f1", name := "pic.png", mimeType := "image/png",
                branchId := "b1", accessCount := 0, createdAt := 100,
                deletedAt := none }],
    infos := [{ fileId := "f1", storageType := .aws, storageFileId := "sf1",
                isActive := true }] }

/-- Like `oneFileDb`, but the File is soft-deleted (`deletedAt` set). -/
def oneFileDbDeleted : DB :=
  { files := [{ id := "f1", name := "pic.png", mimeType := "image/png",
                branchId := "b1", accessCount := 0, createdAt := 100,
                deletedAt := some 50 }],
    infos := [{ fileId := "f1", storageType := .aws, storageFileId := "sf1",
                isActive := true }] }

/-! ## Claims -/

/-- C1: the claim states that the File row and StorageInfo row are created
as a single metadata-store transaction, so that if creating either row
fails, neither row remains.  The code violates this: inside
`prisma.$transaction(async (prisma) => …)`, `createFileRecord` writes the
File row through `this.prisma` (the root client, outside the transaction)
while the StorageInfo row goes through the transaction client.  With one
adapter whose upload succeeds, a File create that succeeds and a
StorageInfo create that fails, `uploadFile` errors — yet the File row
`f1` remains committed in the store and no StorageInfo row exists. -/
theorem c1_file_row_survives_storageinfo_failure :
    isErr (StorageService.uploadFile (fun _ => .ok ⟨"sf1", some "https://s/sf1"⟩)
      true false "f1" ⟨1, 0⟩ ⟨[], []⟩).1 = true ∧
    (StorageService.uploadFile (fun _ => .ok ⟨"sf1", some "https://s/sf1"⟩)
      true false "f1" ⟨1, 0⟩ ⟨[], []⟩).2.2.1 =
      ⟨["f1"], []⟩ := by
  constructor <;> rfl

/-- C2 counterexample: with a single adapter whose upload fails, the error
`uploadFile` rethrows carries code `DATABASE_ERROR` (the catch-all wrapper
`'Failed to complete file upload transaction'`), not `UPLOAD_FAILED` as
the claim states. -/
theorem c2_caller_gets_database_error :
    errCode (StorageService.uploadFile
        (fun _ => .error (.base "provider refused" .UPLOAD_FAILED))
        true true "f1" ⟨1, 0⟩ ⟨[], []⟩).1 = some .DATABASE_ERROR ∧
    errCode (StorageService.uploadFile
        (fun _ => .error (.base "provider refused" .UPLOAD_FAILED))
        true true "f1" ⟨1, 0⟩ ⟨[], []⟩).1 ≠ some .UPLOAD_FAILED := by
  constructor
  · rfl
  · decide

/-- C2 (amended): when every adapter's upload fails, no metadata write is
attempted and the store is unchanged, but the error the caller of
`uploadFile` receives is the `DATABASE_ERROR`-coded transaction wrapper
whose `details` carry the `UPLOAD_FAILED` error (itself wrapping the last
adapter's error) — not a top-level `UPLOAD_FAILED`. -/
theorem c2_all_fail_no_metadata_write_database_error
    (n c0 : Nat) (up : Nat → Except StorageError StorageService.UploadResult)
    (errs : Nat → StorageError) (fileCreateOk infoCreateOk : Bool)
    (newId : String) (db : StorageService.MetaDB)
    (hn : 0 < n) (hc : c0 < n)
    (hfail : ∀ a, a < n → up a = .error (errs a)) :
    (StorageService.uploadFile up fileCreateOk infoCreateOk newId ⟨n, c0⟩ db).1 =
      .error (StorageService.txWrap
        (StorageService.allFailedErr (errs ((c0 + (n - 1)) % n)))) ∧
    errCode (StorageService.uploadFile up fileCreateOk infoCreateOk newId
      ⟨n, c0⟩ db).1 = some .DATABASE_ERROR ∧
    errDetailsCode (StorageService.uploadFile up fileCreateOk infoCreateOk newId
      ⟨n, c0⟩ db).1 = some .UPLOAD_FAILED ∧
    (StorageService.uploadFile up fileCreateOk infoCreateOk newId
      ⟨n, c0⟩ db).2.2.1 = db ∧
    (StorageService.uploadFile up fileCreateOk infoCreateOk newId
      ⟨n, c0⟩ db).2.2.2 = 0 := by
  obtain ⟨m, rfl⟩ : ∃ m, n = m + 1 := ⟨n - 1, by omega⟩
  have hgo := StorageService.uploadGo_allFail up errs (m + 1) hfail m c0 hc
  have hts : StorageService.uploadToStorage up ⟨m + 1, c0⟩ =
      (.failure (StorageService.allFailedErr (errs ((c0 + m) % (m + 1)))),
        ⟨m + 1, (c0 + m + 1) % (m + 1)⟩,
        StorageService.cursorSeq (m + 1) c0 (m + 1)) := by
    unfold StorageService.uploadToStorage
    exact hgo
  simp only [StorageService.uploadFile, hts]
  simp [errCode, errDetailsCode, StorageService.txWrap,
    StorageService.allFailedErr, StorageError.code, Nat.add_sub_cancel]

/-- Witness for C2's amended theorem at a concrete input. -/
theorem c2_all_fail_witness :
    errCode (StorageService.uploadFile
        (fun _ => .error (.base "boom" .UPLOAD_FAILED)) true true "f9"
        ⟨2, 0⟩ ⟨["old"], ["old"]⟩).1 = some .DATABASE_ERROR ∧
    errDetailsCode (StorageService.uploadFile
        (fun _ => .error (.base "boom" .UPLOAD_FAILED)) true true "f9"
        ⟨2, 0⟩ ⟨["old"], ["old"]⟩).1 = some .UPLOAD_FAILED ∧
    (StorageService.uploadFile
        (fun _ => .error (.base "boom" .UPLOAD_FAILED)) true true "f9"
        ⟨2, 0⟩ ⟨["old"], ["old"]⟩).2.2.1 = ⟨["old"], ["old"]⟩ ∧
    (StorageService.uploadFile
        (fun _ => .error (.base "boom" .UPLOAD_FAILED)) true true "f9"
        ⟨2, 0⟩ ⟨["old"], ["old"]⟩).2.2.2 = 0 := by
  have h := c2_all_fail_no_metadata_write_database_error 2 0
    (fun _ => .error (.base "boom" .UPLOAD_FAILED))
    (fun _ => .base "boom" .UPLOAD_FAILED) true true "f9" ⟨["old"], ["old"]⟩
    (by decide) (by decide) (fun a _ => rfl)
  exact ⟨h.2.1, h.2.2.1, h.2.2.2.1, h.2.2.2.2⟩

/-- C3: the claim states every configured provider implementation (AWS,
Google, Azure) exposes all adapter capability operations of the contract,
including `download`.  The code contradicts its own declared interface:
`AwsS3Adapter` and `GoogleCloudStorageAdapter` declare
`implements CloudStorageAdapter` yet define no `download` method, so
`adapter.download(...)` on either is a call to an absent method; only
`AzureBlobStorageAdapter` implements the full contract. -/
theorem c3_download_missing_from_aws_and_google :
    AdapterOp.download ∈ contractOps ∧
    implementsOp .aws .download = false ∧
    implementsOp .google .download = false ∧
    contractOps.all (fun op => implementsOp .azure op) = true := by
  decide

/-- C4 counterexample: the stored provider tag of file `f1` is `aws`, but
`downloadFile` called with the caller-supplied tag `google` dispatches the
`download` call to the `google` adapter — dispatch is by the caller's tag,
not by the tag of the StorageInfo bound to the file. -/
theorem c4_download_dispatches_on_caller_tag :
    (StorageService.downloadFile (fun _ => true) (fun _ _ => .ok 7)
      oneFileDb "f1" .google).2.2 = [(.google, "sf1")] ∧
    (StorageService.findInfo oneFileDb "f1").map InfoRow.storageType =
      some .aws ∧
    StorageType.google ≠ StorageType.aws := by
  refine ⟨rfl, rfl, by decide⟩

/-- C4 (amended): `downloadFile` resolves the adapter from the
caller-supplied provider tag: when that adapter is not configured the
operation fails with `ValidationFailed`, makes no adapter call and no
fallback, and when it is configured the single call goes to the
caller-supplied tag (with the stored `storageFileId`).  `deleteFile` in
permanent mode resolves from the stored tag, but when that adapter is not
configured it silently skips the provider call (no `ValidationFailed`)
and still succeeds. -/
theorem c4_dispatch_and_no_fallback
    (cfg : StorageType → Bool)
    (dl : StorageType → String → Except StorageError Nat)
    (del : StorageType → String → Except StorageError Unit)
    (db : DB) (id : String) (t : StorageType) (now : Nat)
    (f : FileRow) (info : InfoRow)
    (hf : StorageService.findFile db id = some f)
    (hi : StorageService.findInfo db id = some info) :
    (cfg t = false →
      errCode (StorageService.downloadFile cfg dl db id t).1 =
          some .VALIDATION_FAILED ∧
        (StorageService.downloadFile cfg dl db id t).2.2 = [] ∧
        (StorageService.downloadFile cfg dl db id t).2.1 = db) ∧
    (cfg t = true →
      (StorageService.downloadFile cfg dl db id t).2.2 =
        [(t, info.storageFileId)]) ∧
    (cfg info.storageType = false →
      (StorageService.deleteFile cfg del db id true now).2.2 = [] ∧
        isErr (StorageService.deleteFile cfg del db id true now).1 = false) ∧
    (cfg info.storageType = true →
      (StorageService.deleteFile cfg del db id true now).2.2 =
        [(info.storageType, info.storageFileId)]) := by
  refine ⟨?_, ?_, ?_, ?_⟩
  · intro h
    simp [StorageService.downloadFile, hf, hi, h, errCode, StorageError.code]
  · intro h
    simp only [StorageService.downloadFile, hf, hi, h, if_true]
    cases dl t info.storageFileId <;> rfl
  · intro h
    simp [StorageService.deleteFile, hf, hi, h, isErr]
  · intro h
    simp only [StorageService.deleteFile, hf, hi, h, if_true]
    cases del info.storageType info.storageFileId <;> rfl

/-- Witness for C4's amended theorem at concrete inputs. -/
theorem c4_dispatch_witness :
    errCode (StorageService.downloadFile (fun _ => false) (fun _ _ => .ok 7)
        oneFileDb "f1" .azure).1 = some .VALIDATION_FAILED ∧
    (StorageService.downloadFile (fun _ => true) (fun _ _ => .ok 7)
        oneFileDb "f1" .google).2.2 = [(.google, "sf1")] ∧
    (StorageService.deleteFile (fun _ => false) (fun _ _ => .ok ())
        oneFileDb "f1" true 5).2.2 = [] ∧
    (StorageService.deleteFile (fun _ => true) (fun _ _ => .ok ())
        oneFileDb "f1" true 5).2.2 = [(.aws, "sf1")] := by
  refine ⟨?_, ?_, ?_, ?_⟩
  · exact (c4_dispatch_and_no_fallback (fun _ => false) (fun _ _ => .ok 7)
      (fun _ _ => .ok ()) oneFileDb "f1" .azure 5 _ _ rfl rfl).1 rfl |>.1
  · exact (c4_dispatch_and_no_fallback (fun _ => true) (fun _ _ => .ok 7)
      (fun _ _ => .ok ()) oneFileDb "f1" .google 5 _ _ rfl rfl).2.1 rfl
  · exact (c4_dispatch_and_no_fallback (fun _ => false) (fun _ _ => .ok 7)
      (fun _ _ => .ok ()) oneFileDb "f1" .aws 5 _ _ rfl rfl).2.2.1 rfl |>.1
  · exact (c4_dispatch_and_no_fallback (fun _ => true) (fun _ _ => .ok 7)
      (fun _ _ => .ok ()) oneFileDb "f1" .aws 5 _ _ rfl rfl).2.2.2 rfl

/-- C5: with `N` configured adapters all of whose uploads fail, the
orchestrator attempts each adapter exactly once (`N` attempts total) and
raises `UPLOAD_FAILED` carrying the last attempted adapter's error as
`details`; and if the `(k+1)`-st attempted adapter succeeds, the loop
short-circuits there and returns its result. -/
theorem c5_failover_exhaustion_and_short_circuit
    (n c0 : Nat) (up : Nat → Except StorageError StorageService.UploadResult)
    (errs : Nat → StorageError) (hn : 0 < n) (hc : c0 < n) :
    ((∀ a, a < n → up a = .error (errs a)) →
      (StorageService.uploadToStorage up ⟨n, c0⟩).1 =
          .failure (StorageService.allFailedErr (errs ((c0 + (n - 1)) % n))) ∧
        (StorageService.uploadToStorage up ⟨n, c0⟩).2.2.length = n ∧
        (∀ a, a < n →
          (StorageService.uploadToStorage up ⟨n, c0⟩).2.2.count a = 1)) ∧
    (∀ k res, k < n →
      (∀ j, j < k → ∃ e, up ((c0 + j) % n) = .error e) →
      up ((c0 + k) % n) = .ok res →
      (StorageService.uploadToStorage up ⟨n, c0⟩).1 = .success res ∧
        (StorageService.uploadToStorage up ⟨n, c0⟩).2.2 =
          StorageService.cursorSeq n c0 (k + 1)) := by
  constructor
  · intro hfail
    obtain ⟨m, rfl⟩ : ∃ m, n = m + 1 := ⟨n - 1, by omega⟩
    have hts : StorageService.uploadToStorage up ⟨m + 1, c0⟩ =
        (.failure (StorageService.allFailedErr (errs ((c0 + m) % (m + 1)))),
          ⟨m + 1, (c0 + m + 1) % (m + 1)⟩,
          StorageService.cursorSeq (m + 1) c0 (m + 1)) := by
      unfold StorageService.uploadToStorage
      exact StorageService.uploadGo_allFail up errs (m + 1) hfail m c0 hc
    rw [hts]
    refine ⟨by simp [Nat.add_sub_cancel], ?_, ?_⟩
    · simp [StorageService.cursorSeq]
    · intro a ha
      exact StorageService.cursorSeq_count_full (m + 1) c0 hc a ha
  · intro k res hk hfail hok
    have hts : StorageService.uploadToStorage up ⟨n, c0⟩ =
        (.success res, ⟨n, (c0 + k + 1) % n⟩,
          StorageService.cursorSeq n c0 (k + 1)) := by
      unfold StorageService.uploadToStorage
      exact StorageService.uploadGo_firstSuccess up n k n c0 res hc hk hfail hok
    rw [hts]
    exact ⟨rfl, rfl⟩

/-- Witness for C5 at concrete inputs: two adapters that both fail, and
two adapters where the second attempt succeeds. -/
theorem c5_failover_witness :
    (StorageService.uploadToStorage
        (fun _ => .error (.base "x" .UPLOAD_FAILED)) ⟨2, 0⟩).1 =
      .failure (StorageService.allFailedErr (.base "x" .UPLOAD_FAILED)) ∧
    (StorageService.uploadToStorage
        (fun _ => .error (.base "x" .UPLOAD_FAILED)) ⟨2, 0⟩).2.2.count 0 = 1 ∧
    (StorageService.uploadToStorage
        (fun a => if a = 0 then .error (.base "x" .UPLOAD_FAILED)
          else .ok ⟨"s", none⟩) ⟨2, 0⟩).1 = .success ⟨"s", none⟩ := by
  refine ⟨?_, ?_, ?_⟩
  · exact ((c5_failover_exhaustion_and_short_circuit 2 0
      (fun _ => .error (.base "x" .UPLOAD_FAILED))
      (fun _ => .base "x" .UPLOAD_FAILED) (by decide) (by decide)).1
      (fun a _ => rfl)).1
  · exact ((c5_failover_exhaustion_and_short_circuit 2 0
      (fun _ => .error (.base "x" .UPLOAD_FAILED))
      (fun _ => .base "x" .UPLOAD_FAILED) (by decide) (by decide)).1
      (fun a _ => rfl)).2.2 0 (by decide)
  · exact ((c5_failover_exhaustion_and_short_circuit 2 0
      (fun a => if a = 0 then .error (.base "x" .UPLOAD_FAILED)
        else .ok ⟨"s", none⟩)
      (fun _ => .base "x" .UPLOAD_FAILED) (by decide) (by decide)).2
      1 ⟨"s", none⟩ (by decide)
      (fun j hj => ⟨.base "x" .UPLOAD_FAILED, by interval_cases j <;> rfl⟩)
      rfl).1

/-- C6: round-robin fairness.  (i) Each registry call returns
`adapters[cursor]` and advances the cursor by one modulo `N`;
(ii) whatever the adapters do, one upload attempt consumes exactly one
cursor position — the final cursor is the initial one advanced by the
number of attempts, never rewound; (iii) for `K` consecutive uploads with
no failures the adapters used are the next `K` cursor positions in cyclic
order from the starting offset, and each adapter `j` is used exactly
`⌊K/N⌋` or `⌈K/N⌉` times. -/
theorem c6_round_robin_fairness
    (n c0 K : Nat) (up : Nat → Except StorageError StorageService.UploadResult)
    (res : Nat → StorageService.UploadResult) (hn : 0 < n) (hc : c0 < n) :
    StorageService.getNextAdapter ⟨n, c0⟩ = (c0, ⟨n, (c0 + 1) % n⟩) ∧
    (∀ up2 : Nat → Except StorageError StorageService.UploadResult,
      (StorageService.uploadToStorage up2 ⟨n, c0⟩).2.1 =
        ⟨n, (c0 + (StorageService.uploadToStorage up2 ⟨n, c0⟩).2.2.length) % n⟩) ∧
    ((∀ a, a < n → up a = .ok (res a)) →
      (StorageService.runUploads up K ⟨n, c0⟩).2 =
          StorageService.cursorSeq n c0 K ∧
        (∀ j, j < n →
          (StorageService.runUploads up K ⟨n, c0⟩).2.count j = K / n ∨
          (StorageService.runUploads up K ⟨n, c0⟩).2.count j =
            (K + n - 1) / n)) := by
  refine ⟨rfl, ?_, ?_⟩
  · intro up2
    exact StorageService.uploadGo_cursor up2 n hn n c0 hc
  · intro hok
    have hrun := StorageService.runUploads_allOk up n res hok K c0 hc
    constructor
    · rw [hrun]
    · intro j hj
      have hcount : (StorageService.runUploads up K ⟨n, c0⟩).2.count j =
          (StorageService.cursorSeq n c0 K).count j := by
        rw [hrun]
      rw [hcount]
      obtain ⟨h1, h2⟩ := StorageService.cursorSeq_count_bounds n j hj K c0 hc
      have hceil : (K + n - 1) / n ≤ K / n + 1 := by
        calc (K + n - 1) / n ≤ (K + n) / n :=
              Nat.div_le_div_right (by omega)
          _ = K / n + 1 := Nat.add_div_right _ hn
      omega

/-- Witness for C6 at a concrete input: 2 adapters, cursor at 1, 3
successful uploads — usage sequence `[1, 0, 1]`, counts 2 and 1. -/
theorem c6_round_robin_witness :
    StorageService.getNextAdapter ⟨2, 1⟩ = (1, ⟨2, 0⟩) ∧
    (StorageService.runUploads (fun _ => .ok ⟨"s", none⟩) 3 ⟨2, 1⟩).2 =
      [1, 0, 1] ∧
    ((StorageService.runUploads (fun _ => .ok ⟨"s", none⟩) 3 ⟨2, 1⟩).2.count 1 = 3 / 2 ∨
      (StorageService.runUploads (fun _ => .ok ⟨"s", none⟩) 3 ⟨2, 1⟩).2.count 1 =
        (3 + 2 - 1) / 2) := by
  have h := c6_round_robin_fairness 2 1 3 (fun _ => .ok ⟨"s", none⟩)
    (fun _ => ⟨"s", none⟩) (by decide) (by decide)
  refine ⟨h.1, ?_, (h.2.2 (fun a _ => rfl)).2 1 (by decide)⟩
  have := (h.2.2 (fun a _ => rfl)).1
  rw [this]
  rfl

/-- C7: signed-URL cache correctness.  Starting from a state where the key
has no live cache entry, a first `getPublicUrl` call at `t1` issues exactly
one provider URL-generation call; a second call at `t2` within `expiresIn`
seconds (`t2 < t1 + expiresIn·1000` ms) returns the identical URL from the
cache (its `expiresAt > now`), issuing no further provider call and leaving
the state unchanged; and any call at `t3` at or past the entry's expiry
`t1 + expiresIn·1000` issues a fresh provider call whose result is stored
with `expiresAt = t3 + expiresIn·1000`. -/
theorem c7_signed_url_cache
    (sign : Nat → String) (expiresIn t1 t2 : Nat) (k : String)
    (st : Adapter.UrlState)
    (hmiss : Adapter.validCached st t1 k = none)
    (h12 : t1 ≤ t2) (hwithin : t2 < t1 + expiresIn * 1000) :
    (Adapter.getPublicUrl sign t2 expiresIn k
        (Adapter.getPublicUrl sign t1 expiresIn k st).2).1 =
      (Adapter.getPublicUrl sign t1 expiresIn k st).1 ∧
    (Adapter.getPublicUrl sign t2 expiresIn k
        (Adapter.getPublicUrl sign t1 expiresIn k st).2).2 =
      (Adapter.getPublicUrl sign t1 expiresIn k st).2 ∧
    (Adapter.getPublicUrl sign t1 expiresIn k st).2.signCalls =
      st.signCalls + 1 ∧
    (∀ t3, t1 + expiresIn * 1000 ≤ t3 →
      (Adapter.getPublicUrl sign t3 expiresIn k
          (Adapter.getPublicUrl sign t1 expiresIn k st).2).2.signCalls =
        (Adapter.getPublicUrl sign t1 expiresIn k st).2.signCalls + 1 ∧
      Adapter.cacheGet (Adapter.getPublicUrl sign t3 expiresIn k
          (Adapter.getPublicUrl sign t1 expiresIn k st).2).2.urlCache k =
        some ⟨(Adapter.getPublicUrl sign t3 expiresIn k
          (Adapter.getPublicUrl sign t1 expiresIn k st).2).1,
          t3 + expiresIn * 1000⟩) := by
  have hset : ∀ (c : List (String × Adapter.CacheEntry))
      (e : Adapter.CacheEntry),
      Adapter.cacheGet (Adapter.cacheSet c k e) k = some e := by
    intro c e
    simp [Adapter.cacheGet, Adapter.cacheSet]
  have h1 := Adapter.getPublicUrl_miss sign t1 expiresIn k st hmiss
  have hvalid2 : Adapter.validCached
      (Adapter.getPublicUrl sign t1 expiresIn k st).2 t2 k =
      some ⟨sign st.signCalls, t1 + expiresIn * 1000⟩ := by
    rw [h1]
    unfold Adapter.validCached
    rw [hset]
    simp [hwithin]
  have h2 := Adapter.getPublicUrl_hit sign t2 expiresIn k _ _ hvalid2
  refine ⟨?_, ?_, ?_, ?_⟩
  · rw [h2, h1]
  · rw [h2]
  · rw [h1]
  · intro t3 h3
    have hvalid3 : Adapter.validCached
        (Adapter.getPublicUrl sign t1 expiresIn k st).2 t3 k = none := by
      rw [h1]
      unfold Adapter.validCached
      rw [hset]
      simp
      omega
    have h3eq := Adapter.getPublicUrl_miss sign t3 expiresIn k _ hvalid3
    constructor
    · rw [h3eq]
    · rw [h3eq]
      exact hset _ _

/-- Witness for C7 at a concrete input (empty cache, `expiresIn = 1`,
calls at `t = 0`, `t = 900` and `t = 1000` ms). -/
theorem c7_signed_url_cache_witness :
    (Adapter.getPublicUrl (fun i => if i = 0 then "u0" else "u1") 900 1 "sf"
        (Adapter.getPublicUrl (fun i => if i = 0 then "u0" else "u1") 0 1 "sf"
          ⟨[], 0⟩).2).1 =
      (Adapter.getPublicUrl (fun i => if i = 0 then "u0" else "u1") 0 1 "sf"
        ⟨[], 0⟩).1 ∧
    (Adapter.getPublicUrl (fun i => if i = 0 then "u0" else "u1") 0 1 "sf"
        ⟨[], 0⟩).2.signCalls = 1 ∧
    (Adapter.getPublicUrl (fun i => if i = 0 then "u0" else "u1") 1000 1 "sf"
        (Adapter.getPublicUrl (fun i => if i = 0 then "u0" else "u1") 0 1 "sf"
          ⟨[], 0⟩).2).2.signCalls = 2 := by
  have h := c7_signed_url_cache (fun i => if i = 0 then "u0" else "u1")
    1 0 900 "sf" ⟨[], 0⟩ rfl (by decide) (by decide)
  refine ⟨h.1, h.2.2.1, ?_⟩
  have := (h.2.2.2 1000 (by decide)).1
  rw [this, h.2.2.1]

/-- C8: the access counter on the File is incremented by `downloadFile` if
and only if the File+StorageInfo lookup and the adapter lookup both
succeed.  When the lookup fails, or the adapter for the requested provider
is not configured (`ValidationFailed`), the store is unchanged; once the
adapter lookup succeeds the increment commits, and it persists even when
the subsequent stream open fails and `DownloadFailed` is raised. -/
theorem c8_access_counter_increment
    (cfg : StorageType → Bool)
    (dl : StorageType → String → Except StorageError Nat)
    (db : DB) (id : String) (t : StorageType) :
    (StorageService.findFile db id = none →
      (StorageService.downloadFile cfg dl db id t).2.1 = db) ∧
    (StorageService.findInfo db id = none →
      (StorageService.downloadFile cfg dl db id t).2.1 = db) ∧
    (∀ f info, StorageService.findFile db id = some f →
      StorageService.findInfo db id = some info →
      cfg t = false →
      (StorageService.downloadFile cfg dl db id t).2.1 = db ∧
        errCode (StorageService.downloadFile cfg dl db id t).1 =
          some .VALIDATION_FAILED) ∧
    (∀ f info, StorageService.findFile db id = some f →
      StorageService.findInfo db id = some info →
      cfg t = true →
      (StorageService.downloadFile cfg dl db id t).2.1 =
          StorageService.bumpAccess db id ∧
        (∀ e, dl t info.storageFileId = .error e →
          errCode (StorageService.downloadFile cfg dl db id t).1 =
            some .DOWNLOAD_FAILED)) := by
  refine ⟨?_, ?_, ?_, ?_⟩
  · intro h
    simp [StorageService.downloadFile, h]
  · intro h
    cases hf : StorageService.findFile db id with
    | none => simp [StorageService.downloadFile, hf]
    | some f => simp [StorageService.downloadFile, hf, h]
  · intro f info hf hi hc
    simp [StorageService.downloadFile, hf, hi, hc, errCode,
      StorageError.code]
  · intro f info hf hi hc
    constructor
    · simp only [StorageService.downloadFile, hf, hi, hc, if_true]
      cases dl t info.storageFileId <;> rfl
    · intro e he
      simp [StorageService.downloadFile, hf, hi, hc, he, errCode,
        StorageError.code]

/-- Witness for C8 at concrete inputs: missing adapter leaves the store
unchanged with `ValidationFailed`; a failing stream open still leaves the
counter incremented alongside `DownloadFailed`. -/
theorem c8_access_counter_witness :
    (StorageService.downloadFile (fun _ => false) (fun _ _ => .ok 7)
        oneFileDb "f1" .aws).2.1 = oneFileDb ∧
    errCode (StorageService.downloadFile (fun _ => false) (fun _ _ => .ok 7)
        oneFileDb "f1" .aws).1 = some .VALIDATION_FAILED ∧
    (StorageService.downloadFile (fun _ => true)
        (fun _ _ => .error (.base "io" .DOWNLOAD_FAILED))
        oneFileDb "f1" .aws).2.1 = StorageService.bumpAccess oneFileDb "f1" ∧
    errCode (StorageService.downloadFile (fun _ => true)
        (fun _ _ => .error (.base "io" .DOWNLOAD_FAILED))
        oneFileDb "f1" .aws).1 = some .DOWNLOAD_FAILED := by
  refine ⟨?_, ?_, ?_, ?_⟩
  · exact ((c8_access_counter_increment (fun _ => false) (fun _ _ => .ok 7)
      oneFileDb "f1" .aws).2.2.1 _ _ rfl rfl rfl).1
  · exact ((c8_access_counter_increment (fun _ => false) (fun _ _ => .ok 7)
      oneFileDb "f1" .aws).2.2.1 _ _ rfl rfl rfl).2
  · exact ((c8_access_counter_increment (fun _ => true)
      (fun _ _ => .error (.base "io" .DOWNLOAD_FAILED))
      oneFileDb "f1" .aws).2.2.2 _ _ rfl rfl rfl).1
  · exact ((c8_access_counter_increment (fun _ => true)
      (fun _ _ => .error (.base "io" .DOWNLOAD_FAILED))
      oneFileDb "f1" .aws).2.2.2 _ _ rfl rfl rfl).2
      (.base "io" .DOWNLOAD_FAILED) rfl

/-- C9 counterexample: file `f1` is soft-deleted (`deletedAt = 50`), yet
`downloadFile` — a lookup operation of the service — returns it and acts
on it: the download succeeds and the access counter is incremented, so
`deletedAt IS NULL` is not the visibility predicate of every lookup. -/
theorem c9_download_returns_soft_deleted_file :
    (StorageService.findFile oneFileDbDeleted "f1").map FileRow.deletedAt =
      some (some 50) ∧
    (StorageService.downloadFile (fun _ => true) (fun _ _ => .ok 7)
        oneFileDbDeleted "f1" .aws).1 = .ok ⟨7, "pic.png", "image/png"⟩ ∧
    (StorageService.downloadFile (fun _ => true) (fun _ _ => .ok 7)
        oneFileDbDeleted "f1" .aws).2.1 =
      StorageService.bumpAccess oneFileDbDeleted "f1" := by
  refine ⟨rfl, rfl, rfl⟩

/-- C9 (amended): the `deletedAt IS NULL` visibility predicate is applied
by `listFiles` (every returned item has `deletedAt = none`), but by-id
lookups do not filter on `deletedAt`: `downloadFile` finds a soft-deleted
File and still acts on it (increments its access counter and dispatches
the download). -/
theorem c9_soft_delete_visibility_partial
    (db : DB) (dto : StorageService.ListFilesRequest)
    (cfg : StorageType → Bool)
    (dl : StorageType → String → Except StorageError Nat)
    (id : String) (t : StorageType) (f : FileRow) (info : InfoRow)
    (hf : StorageService.findFile db id = some f)
    (hi : StorageService.findInfo db id = some info)
    (hdel : f.deletedAt ≠ none) (hcfg : cfg t = true) :
    (∀ fi ∈ (StorageService.listFiles db dto).files, fi.deletedAt = none) ∧
    (StorageService.downloadFile cfg dl db id t).2.1 =
      StorageService.bumpAccess db id := by
  constructor
  · intro fi hfi
    simp only [StorageService.listFiles] at hfi
    obtain ⟨row, hrow, rfl⟩ := List.mem_map.1 hfi
    have h1 := List.mem_of_mem_take hrow
    have h2 := List.mem_of_mem_drop h1
    have h3 := List.mem_mergeSort.1 h2
    have h4 := (List.mem_filter.1 h3).2
    simp only [StorageService.listWhere, Bool.and_eq_true,
      decide_eq_true_eq] at h4
    simp [StorageService.mapToFileInfoDto, h4.1.2]
  · simp only [StorageService.downloadFile, hf, hi, hcfg, if_true]
    cases dl t info.storageFileId <;> rfl

/-- Witness for C9's amended theorem at a concrete input. -/
theorem c9_soft_delete_visibility_witness :
    (∀ fi ∈ (StorageService.listFiles oneFileDbDeleted
        ⟨"b1", none, 1, 10⟩).files, fi.deletedAt = none) ∧
    (StorageService.downloadFile (fun _ => true) (fun _ _ => .ok 9)
        oneFileDbDeleted "f1" .aws).2.1 =
      StorageService.bumpAccess oneFileDbDeleted "f1" :=
  c9_soft_delete_visibility_partial oneFileDbDeleted ⟨"b1", none, 1, 10⟩
    (fun _ => true) (fun _ _ => .ok 9) "f1" .aws _ _ rfl rfl
    (by decide) rfl

/-- C10: permanent delete is best-effort on the provider side: the result
and the resulting store do not depend on the adapter `delete` behaviour at
all (a throwing provider call is logged and swallowed), the call succeeds,
and the File row is removed from the metadata store unconditionally. -/
theorem c10_permanent_delete_unconditional
    (cfg : StorageType → Bool)
    (del del' : StorageType → String → Except StorageError Unit)
    (db : DB) (id : String) (now : Nat) (f : FileRow)
    (hf : StorageService.findFile db id = some f) :
    StorageService.deleteFile cfg del db id true now =
      StorageService.deleteFile cfg del' db id true now ∧
    (StorageService.deleteFile cfg del db id true now).1 =
      .ok ⟨id, true, none⟩ ∧
    (StorageService.deleteFile cfg del db id true now).2.1.files.all
      (fun g => ¬ (g.id = id)) = true := by
  have hgen : ∀ (d : StorageType → String → Except StorageError Unit),
      StorageService.deleteFile cfg d db id true now =
        (.ok ⟨id, true, none⟩,
          { db with files := db.files.filter (fun g => ¬ (g.id = id)) },
          match StorageService.findInfo db id with
          | some info => if cfg info.storageType
              then [(info.storageType, info.storageFileId)] else []
          | none => []) := by
    intro d
    simp only [StorageService.deleteFile, hf, if_true]
    cases hix : StorageService.findInfo db id with
    | none => rfl
    | some info =>
      by_cases hcfg : cfg info.storageType
      · simp only [hcfg, if_true]
        cases d info.storageType info.storageFileId <;> rfl
      · simp [hcfg]
  refine ⟨(hgen del).trans (hgen del').symm, ?_, ?_⟩
  · rw [hgen del]
  · rw [hgen del]
    simp only [List.all_eq_true]
    intro g hg
    exact (List.mem_filter.1 hg).2

/-- Witness for C10 at a concrete input: provider deletion throwing vs
succeeding give the same outcome, and the File row is gone. -/
theorem c10_permanent_delete_witness :
    StorageService.deleteFile (fun _ => true)
        (fun _ _ => .error (.base "net" .DELETE_FAILED))
        oneFileDb "f1" true 7 =
      StorageService.deleteFile (fun _ => true) (fun _ _ => .ok ())
        oneFileDb "f1" true 7 ∧
    (StorageService.deleteFile (fun _ => true)
        (fun _ _ => .error (.base "net" .DELETE_FAILED))
        oneFileDb "f1" true 7).1 = .ok ⟨"f1", true, none⟩ ∧
    (StorageService.deleteFile (fun _ => true)
        (fun _ _ => .error (.base "net" .DELETE_FAILED))
        oneFileDb "f1" true 7).2.1.files.all
      (fun g => ¬ (g.id = "f1")) = true :=
  c10_permanent_delete_unconditional (fun _ => true)
    (fun _ _ => .error (.base "net" .DELETE_FAILED)) (fun _ _ => .ok ())
    oneFileDb "f1" 7 _ rfl
